import Mathlib

/-!
Verification of the dashboard chart adapter and the payment-status /
payment-mode form coupling rule of `static/app.js`.

The repository ships two versions of the script.  The first version
(lines 1-29) has an older `sync` that maps a `Pending` status to the
literal mode value `"Pending"`; the second version (lines 30-149) adds
percentage labels/tooltips/legends for pie and donut charts and couples
the mode field to the `"Paid"` status.  Both `sync` bodies are embedded
below (`sync_v1`, `sync_v2`), together with the percentage formatter,
the tooltip callback and the legend `generateLabels` of the second
version.

JavaScript numbers are modelled as exact rationals (ℚ); `reduce` over
`+` as a left fold; `data[i] ?? 0` as `List.getD i 0`; string building
by template literal as `String.append`.
-/

/-- The state of the two coupled form controls: the value of the
payment-status selector (`payStatus`), the value of the payment-mode
selector (`payMode`) and the `disabled` flag of the mode selector. -/
structure FormState where
  status : String
  mode : String
  modeDisabled : Bool
deriving DecidableEq

/-- `sync` of the first script version (app.js lines 22-25):
`if (statusSel.value === 'Pending') { modeSel.value = 'Pending'; modeSel.disabled = true; }
 else { if (modeSel.value==='Pending') modeSel.value='UPI'; modeSel.disabled = false; }` -/
def sync_v1 (s : FormState) : FormState :=
  if s.status = "Pending" then
    { s with mode := "Pending", modeDisabled := true }
  else
    { s with mode := if s.mode = "Pending" then "UPI" else s.mode, modeDisabled := false }

/-- `sync` of the second script version (app.js lines 137-144):
`if (statusSel.value === 'Paid') { modeSel.disabled = false; }
 else { modeSel.value = ""; modeSel.disabled = true; }` -/
def sync_v2 (s : FormState) : FormState :=
  if s.status = "Paid" then
    { s with modeDisabled := false }
  else
    { s with mode := "", modeDisabled := true }

/-- A change event on the payment-status selector: the control takes the
new value, then the registered listener `sync` runs (app.js line 145). -/
def statusChange (s : FormState) (newStatus : String) : FormState :=
  sync_v2 { s with status := newStatus }

/-- A whole form session of the second script version: on
DOMContentLoaded the listener is registered and `sync()` is invoked once
against the pre-filled state (app.js lines 145-147), after which each
status change event re-runs `sync`. -/
def formSession (initial : FormState) (events : List String) : FormState :=
  events.foldl statusChange (sync_v2 initial)

/-- `data.reduce((a, b) => a + b, 0)`: the total of a value sequence. -/
def total (data : List ℚ) : ℚ :=
  data.foldl (fun a b => a + b) 0

/-- One-decimal fixed formatting of a nonnegative number, as by
JavaScript `toFixed(1)`: the integer n with n/10 closest to the input,
ties to the larger n, printed with one fraction digit. -/
def toFixed1Core (q : ℚ) : String :=
  let n : ℤ := ⌊q * 10 + 1 / 2⌋
  toString (n / 10) ++ "." ++ toString (n % 10)

/-- JavaScript `Number.prototype.toFixed(1)`: a leading minus sign for
negative input, then the nonnegative case. -/
def toFixed1 (q : ℚ) : String :=
  if q < 0 then "-" ++ toFixed1Core (-q) else toFixed1Core q

/-- Template-literal rendering of a numeric value (`${val}`), exact on
integers, which is the only case the statements below evaluate;
a non-integer rational is rendered as numerator/denominator. -/
def numToStr (q : ℚ) : String :=
  if q.den = 1 then toString q.num else toString q.num ++ "/" ++ toString q.den

/-- The percentage string shared by the tooltip callbacks (app.js lines
55, 86, 106): `total ? (val*100/total).toFixed(1) : 0`, the number 0
rendering as "0" in the template literal. -/
def pctStr (val t : ℚ) : String :=
  if t ≠ 0 then toFixed1 (val * 100 / t) else "0"

/-- The numeric slice percentage of the datalabels formatter (app.js
line 40): `const pct = total ? (value * 100 / total) : 0`. -/
def dataLabelPct (value : ℚ) (data : List ℚ) : ℚ :=
  if total data ≠ 0 then value * 100 / total data else 0

/-- The on-chart label of the datalabels formatter (app.js line 42):
`return pct >= 3 ? pct.toFixed(1) + '%' : ''`. -/
def dataLabelText (value : ℚ) (data : List ℚ) : String :=
  let pct := dataLabelPct value data
  if pct ≥ 3 then toFixed1 pct ++ "%" else ""

/-- The tooltip callback of `percentOpts` and of the pie chart (app.js
lines 51-56 and 102-107): returns `${label}: ${val} (${pct}%)`. -/
def tooltipText (label : String) (val : ℚ) (data : List ℚ) : String :=
  label ++ ": " ++ numToStr val ++ " (" ++ pctStr val (total data) ++ "%)"

/-- One legend item produced by `generateLabels`; the style fields
(fill, stroke, line width, hidden) come from chart-library internals
outside this repository and are not modelled. -/
structure LegendEntry where
  text : String
  index : Nat
deriving DecidableEq

/-- `generateLabels` of the pie-chart legend (app.js lines 80-97):
maps over the labels with index, takes `data[i] ?? 0` as the value, the
shared percentage string, and builds `${label} — ${pct}% (${val})`. -/
def generateLabels (labels : List String) (data : List ℚ) : List LegendEntry :=
  labels.enum.map (fun p =>
    let val := data.getD p.1 0
    { text := p.2 ++ " — " ++ pctStr val (total data) ++ "% (" ++ numToStr val ++ ")",
      index := p.1 })

/-! ## Helper lemmas about the coupling rule -/

lemma sync_v2_status (s : FormState) : (sync_v2 s).status = s.status := by
  rw [sync_v2]; split <;> rfl

lemma sync_v2_not_paid (s : FormState) (h : s.status ≠ "Paid") :
    sync_v2 s = ⟨s.status, "", true⟩ := by
  rw [sync_v2, if_neg h]

lemma formSession_eq_sync (initial : FormState) (events : List String) :
    ∃ t, formSession initial events = sync_v2 t := by
  rw [formSession]
  induction events generalizing initial with
  | nil => exact ⟨initial, rfl⟩
  | cons e rest ih =>
      have h := ih { sync_v2 initial with status := e }
      simpa [statusChange] using h

/-! ## Claims about the coupling rule -/

/-- C1: on every payment-status change event handled by the coupling
rule's `sync`, status "Paid" leaves the mode field enabled with its
selection preserved, and any other status clears the mode value to ""
and disables the field. -/
theorem paid_enables_mode_otherwise_clears (s : FormState) (ev : String) :
    (ev = "Paid" → statusChange s ev = ⟨"Paid", s.mode, false⟩) ∧
    (ev ≠ "Paid" → statusChange s ev = ⟨ev, "", true⟩) := by
  constructor <;> intro h <;> simp [statusChange, sync_v2, h]

theorem paid_enables_mode_otherwise_clears_witness :
    statusChange ⟨"Pending", "UPI", true⟩ "Paid" = ⟨"Paid", "UPI", false⟩ ∧
    statusChange ⟨"Paid", "UPI", false⟩ "Pending" = ⟨"Pending", "", true⟩ :=
  ⟨(paid_enables_mode_otherwise_clears ⟨"Pending", "UPI", true⟩ "Paid").1 rfl,
   (paid_enables_mode_otherwise_clears ⟨"Paid", "UPI", false⟩ "Pending").2 (by decide)⟩

/-- C7: in every form state reachable by a sequence of payment-status
change events after the initial `sync()` call, a "Pending" status means
the mode field is empty and disabled. -/
theorem pending_invariant (initial : FormState) (events : List String)
    (h : (formSession initial events).status = "Pending") :
    (formSession initial events).mode = "" ∧
    (formSession initial events).modeDisabled = true := by
  obtain ⟨t, ht⟩ := formSession_eq_sync initial events
  rw [ht] at h ⊢
  have hs : t.status ≠ "Paid" := by
    rw [sync_v2_status] at h
    rw [h]; decide
  rw [sync_v2_not_paid t hs]
  exact ⟨rfl, rfl⟩

theorem pending_invariant_witness :
    (formSession ⟨"", "UPI", false⟩ ["Paid", "Pending"]).status = "Pending" ∧
    (formSession ⟨"", "UPI", false⟩ ["Paid", "Pending"]).mode = "" ∧
    (formSession ⟨"", "UPI", false⟩ ["Paid", "Pending"]).modeDisabled = true :=
  ⟨by decide, pending_invariant ⟨"", "UPI", false⟩ ["Paid", "Pending"] (by decide)⟩

/-- C8: on form load the rule runs once against the pre-filled status,
so the initial mode-field state is `sync` of the pre-filled state; in
particular a pre-filled "Paid" order starts with the mode field enabled
and its selection kept. -/
theorem load_applies_rule_once (s : FormState) :
    formSession s [] = sync_v2 s ∧
    (s.status = "Paid" → formSession s [] = ⟨"Paid", s.mode, false⟩) := by
  refine ⟨rfl, fun h => ?_⟩
  show sync_v2 s = _
  simp [sync_v2, h]

theorem load_applies_rule_once_witness :
    formSession ⟨"Paid", "UPI", true⟩ [] = sync_v2 ⟨"Paid", "UPI", true⟩ ∧
    formSession ⟨"Paid", "UPI", true⟩ [] = ⟨"Paid", "UPI", false⟩ :=
  ⟨(load_applies_rule_once ⟨"Paid", "UPI", true⟩).1,
   (load_applies_rule_once ⟨"Paid", "UPI", true⟩).2 rfl⟩

/-- C9, counterexample: the two `sync` versions disagree on the state
with status "Pending" and empty mode value — the first writes the mode
value "Pending", the second writes "". -/
theorem sync_versions_differ :
    ((sync_v1 ⟨"Pending", "", false⟩).mode, (sync_v1 ⟨"Pending", "", false⟩).modeDisabled) ≠
    ((sync_v2 ⟨"Pending", "", false⟩).mode, (sync_v2 ⟨"Pending", "", false⟩).modeDisabled) := by
  decide

/-- C9, amended: the two `sync` versions produce the same mode value and
disabled flag exactly when the status is "Paid" and the prior mode value
is not "Pending". -/
theorem sync_versions_agree_iff (s : FormState) :
    ((sync_v1 s).mode = (sync_v2 s).mode ∧
      (sync_v1 s).modeDisabled = (sync_v2 s).modeDisabled) ↔
    (s.status = "Paid" ∧ s.mode ≠ "Pending") := by
  simp only [sync_v1, sync_v2]
  split_ifs with h1 h2 h3 <;> simp_all

/-- C10: both `sync` versions are idempotent — applying either twice to
any form state gives the same state as applying it once. -/
theorem sync_idempotent (s : FormState) :
    sync_v2 (sync_v2 s) = sync_v2 s ∧ sync_v1 (sync_v1 s) = sync_v1 s := by
  constructor <;> (simp only [sync_v1, sync_v2]; split_ifs <;> simp_all)

/-! ## Helper lemmas about the chart adapter -/

lemma foldl_add_eq (l : List ℚ) (a : ℚ) : l.foldl (fun x y => x + y) a = a + l.sum := by
  induction l generalizing a with
  | nil => simp
  | cons x xs ih => simp [ih, add_assoc]

lemma total_eq_sum (data : List ℚ) : total data = data.sum := by
  simp [total, foldl_add_eq]

lemma sum_map_mul_div (l : List ℚ) (t : ℚ) :
    (l.map fun v => v * 100 / t).sum = l.sum * 100 / t := by
  induction l with
  | nil => simp
  | cons x xs ih =>
      simp only [List.map_cons, List.sum_cons, ih]
      ring

lemma toFixed1_eval (q : ℚ) (n : ℤ) (hq : ¬ q < 0) (hn : ⌊q * 10 + 1 / 2⌋ = n) :
    toFixed1 q = toString (n / 10) ++ "." ++ toString (n % 10) := by
  simp only [toFixed1, toFixed1Core, if_neg hq, hn]

lemma numToStr_int (q : ℚ) (hq : q.den = 1) : numToStr q = toString q.num := by
  simp only [numToStr, if_pos hq]

/-! ## Claims about the chart adapter -/

/-- C2: when the total of the value sequence is 0, the percentage is
reported as 0 in the datalabels formatter, in the tooltip callback and
in the legend generator, with no division performed. -/
theorem zero_total_gives_zero_percent (label : String) (value : ℚ)
    (labels : List String) (data : List ℚ) (h : total data = 0) :
    dataLabelPct value data = 0 ∧
    tooltipText label value data
      = label ++ ": " ++ numToStr value ++ " (" ++ "0" ++ "%)" ∧
    generateLabels labels data
      = labels.enum.map (fun p =>
          ⟨p.2 ++ " — " ++ "0" ++ "% (" ++ numToStr (data.getD p.1 0) ++ ")", p.1⟩) := by
  refine ⟨?_, ?_, ?_⟩
  · simp [dataLabelPct, h]
  · simp [tooltipText, pctStr, h]
  · simp [generateLabels, pctStr, h]

theorem zero_total_gives_zero_percent_witness :
    total [(0 : ℚ)] = 0 ∧
    (dataLabelPct 5 [(0 : ℚ)] = 0 ∧
      tooltipText "A" 5 [(0 : ℚ)]
        = "A" ++ ": " ++ numToStr 5 ++ " (" ++ "0" ++ "%)" ∧
      generateLabels ["A"] [(0 : ℚ)]
        = (["A"].enum.map (fun p =>
            ⟨p.2 ++ " — " ++ "0" ++ "% (" ++ numToStr (([(0 : ℚ)]).getD p.1 0) ++ ")",
              p.1⟩))) :=
  ⟨by norm_num [total], zero_total_gives_zero_percent "A" 5 ["A"] [0] (by norm_num [total])⟩

/-- C3: for a non-empty value sequence with non-zero total, the slice
percentages of the datalabels formatter sum to exactly 100. -/
theorem percent_sum_is_100 (data : List ℚ) (hne : data ≠ []) (h : total data ≠ 0) :
    (data.map fun v => dataLabelPct v data).sum = 100 := by
  calc (data.map fun v => dataLabelPct v data).sum
      = (data.map fun v => v * 100 / total data).sum := by simp [dataLabelPct, h]
    _ = data.sum * 100 / total data := sum_map_mul_div data (total data)
    _ = total data * 100 / total data := by rw [total_eq_sum]
    _ = 100 := by rw [mul_comm, mul_div_assoc, div_self h, mul_one]

theorem percent_sum_is_100_witness :
    ([(50 : ℚ), 50] : List ℚ) ≠ [] ∧ total [(50 : ℚ), 50] ≠ 0 ∧
    (([(50 : ℚ), 50] : List ℚ).map fun v => dataLabelPct v [(50 : ℚ), 50]).sum = 100 :=
  ⟨by simp, by norm_num [total],
    percent_sum_is_100 [(50 : ℚ), 50] (by simp) (by norm_num [total])⟩

lemma append_pct_ne_empty (s : String) : s ++ "%" ≠ "" := by
  intro h
  have hl := congrArg String.length h
  rw [String.length_append] at hl
  have h1 : ("%" : String).length = 1 := rfl
  have h2 : ("" : String).length = 0 := rfl
  omega

/-- C4: with a non-zero total, the on-chart datalabel is the empty
string exactly when the slice percentage is below 3, and the tooltip
text always carries the slice percentage. -/
theorem label_suppressed_iff_below_3pct (label : String) (value : ℚ) (data : List ℚ)
    (h : total data ≠ 0) :
    (dataLabelText value data = "" ↔ dataLabelPct value data < 3) ∧
    (∃ s1 s2, tooltipText label value data
        = s1 ++ toFixed1 (value * 100 / total data) ++ s2) := by
  constructor
  · by_cases hp : dataLabelPct value data ≥ 3
    · have he : dataLabelText value data = toFixed1 (dataLabelPct value data) ++ "%" := by
        simp only [dataLabelText]
        rw [if_pos hp]
      rw [he]
      exact iff_of_false (append_pct_ne_empty _) (not_lt.mpr hp)
    · have he : dataLabelText value data = "" := by
        simp only [dataLabelText]
        rw [if_neg hp]
      rw [he]
      exact iff_of_true rfl (lt_of_not_ge hp)
  · refine ⟨label ++ ": " ++ numToStr value ++ " (", "%)", ?_⟩
    simp only [tooltipText, pctStr, if_pos h]

theorem label_suppressed_iff_below_3pct_witness :
    total [(2 : ℚ), 98] ≠ 0 ∧
    ((dataLabelText 2 [(2 : ℚ), 98] = "" ↔ dataLabelPct 2 [(2 : ℚ), 98] < 3) ∧
      (∃ s1 s2, tooltipText "Cotton" 2 [(2 : ℚ), 98]
          = s1 ++ toFixed1 (2 * 100 / total [(2 : ℚ), 98]) ++ s2)) :=
  ⟨by norm_num [total],
    label_suppressed_iff_below_3pct "Cotton" 2 [2, 98] (by norm_num [total])⟩

/-- C5, counterexample: the tooltip callback renders the slice "A" with
value 50 out of total 100 as "A: 50 (50.0%)", not in the claimed
"label — pct% (value)" shape, which here would read "A — 50.0% (50)". -/
theorem tooltip_format_counterexample :
    tooltipText "A" 50 [(50 : ℚ), 50] = "A: 50 (50.0%)" ∧
    tooltipText "A" 50 [(50 : ℚ), 50] ≠ "A — 50.0% (50)" := by
  have ht : total [(50 : ℚ), 50] = 100 := by norm_num [total]
  have htf : toFixed1 (50 : ℚ) = "50.0" := by
    rw [toFixed1_eval 50 500 (by norm_num) (by norm_num)]
    decide
  have hps : pctStr 50 (total [(50 : ℚ), 50]) = "50.0" := by
    rw [ht]
    simp only [pctStr]
    rw [if_pos (show (100 : ℚ) ≠ 0 by norm_num),
      show (50 : ℚ) * 100 / 100 = 50 by norm_num, htf]
  have hns : numToStr (50 : ℚ) = "50" := by
    rw [numToStr_int 50 rfl]
    decide
  have key : tooltipText "A" 50 [(50 : ℚ), 50] = "A: 50 (50.0%)" := by
    simp only [tooltipText, hps, hns]
    decide
  exact ⟨key, by rw [key]; decide⟩

/-- C5, amended: for every slice with non-zero total, the legend text
follows "label — pct% (value)" while the tooltip text follows
"label: value (pct%)"; both carry the percentage and the raw value. -/
theorem legend_dash_tooltip_colon_formats (labels : List String) (data : List ℚ)
    (label : String) (val : ℚ) (i : Nat) (h : total data ≠ 0)
    (hl : labels[i]? = some label) (hd : data[i]? = some val) :
    (generateLabels labels data)[i]?
      = some ⟨label ++ " — " ++ toFixed1 (val * 100 / total data) ++ "% ("
          ++ numToStr val ++ ")", i⟩ ∧
    tooltipText label val data
      = label ++ ": " ++ numToStr val ++ " ("
          ++ toFixed1 (val * 100 / total data) ++ "%)" := by
  constructor
  · have hgd : data.getD i 0 = val := by
      rw [List.getD_eq_getElem?_getD, hd]
      rfl
    simp only [generateLabels, List.getElem?_map, List.getElem?_enum, hl, Option.map_some']
    simp only [hgd, pctStr, if_pos h]
  · simp only [tooltipText, pctStr, if_pos h]

theorem legend_dash_tooltip_colon_formats_witness :
    total [(50 : ℚ), 150] ≠ 0 ∧
    ((generateLabels ["A", "B"] [(50 : ℚ), 150])[0]?
        = some ⟨"A" ++ " — " ++ toFixed1 (50 * 100 / total [(50 : ℚ), 150]) ++ "% ("
            ++ numToStr 50 ++ ")", 0⟩ ∧
      tooltipText "A" 50 [(50 : ℚ), 150]
        = "A" ++ ": " ++ numToStr 50 ++ " ("
            ++ toFixed1 (50 * 100 / total [(50 : ℚ), 150]) ++ "%)") :=
  ⟨by norm_num [total],
    legend_dash_tooltip_colon_formats ["A", "B"] [50, 150] "A" 50 0
      (by norm_num [total]) rfl rfl⟩

/-- C6, counterexample: with two labels but a single value the legend
generator does not fail — it produces a full legend, rendering the
second label with the substituted value 0. -/
theorem mismatched_lengths_counterexample :
    (["A", "B"] : List String).length ≠ ([(5 : ℚ)] : List ℚ).length ∧
    generateLabels ["A", "B"] [(5 : ℚ)]
      = [⟨"A — 100.0% (5)", 0⟩, ⟨"B — 0.0% (0)", 1⟩] := by
  have ht : total [(5 : ℚ)] = 5 := by norm_num [total]
  have htf100 : toFixed1 (100 : ℚ) = "100.0" := by
    rw [toFixed1_eval 100 1000 (by norm_num) (by norm_num)]
    decide
  have htf0 : toFixed1 (0 : ℚ) = "0.0" := by
    rw [toFixed1_eval 0 0 (by norm_num) (by norm_num)]
    decide
  have hp1 : pctStr 5 (total [(5 : ℚ)]) = "100.0" := by
    rw [ht]
    simp only [pctStr]
    rw [if_pos (show (5 : ℚ) ≠ 0 by norm_num),
      show (5 : ℚ) * 100 / 5 = 100 by norm_num, htf100]
  have hp0 : pctStr 0 (total [(5 : ℚ)]) = "0.0" := by
    rw [ht]
    simp only [pctStr]
    rw [if_pos (show (5 : ℚ) ≠ 0 by norm_num),
      show (0 : ℚ) * 100 / 5 = 0 by norm_num, htf0]
  have hn5 : numToStr (5 : ℚ) = "5" := by
    rw [numToStr_int 5 rfl]
    decide
  have hn0 : numToStr (0 : ℚ) = "0" := by
    rw [numToStr_int 0 rfl]
    decide
  refine ⟨by decide, ?_⟩
  have he : (["A", "B"] : List String).enum = [(0, "A"), (1, "B")] := rfl
  have hg0 : ([(5 : ℚ)] : List ℚ).getD 0 0 = 5 := rfl
  have hg1 : ([(5 : ℚ)] : List ℚ).getD 1 0 = 0 := rfl
  simp only [generateLabels, he, List.map_cons, List.map_nil, hg0, hg1, hp1, hp0, hn5, hn0]
  decide

/-- C6, amended: on mismatched label/value lengths the legend generator
does not fail fast: it still emits one entry per label, and every label
beyond the end of the value sequence is rendered with the substituted
value 0. -/
theorem mismatched_lengths_tolerated (labels : List String) (data : List ℚ) :
    (generateLabels labels data).length = labels.length ∧
    (∀ i lab, labels[i]? = some lab → data.length ≤ i →
      (generateLabels labels data)[i]?
        = some ⟨lab ++ " — " ++ pctStr 0 (total data) ++ "% (" ++ numToStr 0 ++ ")", i⟩) := by
  constructor
  · simp [generateLabels]
  · intro i lab hl hle
    have hgd : data.getD i 0 = 0 := by
      rw [List.getD_eq_getElem?_getD, List.getElem?_eq_none hle]
      rfl
    simp only [generateLabels, List.getElem?_map, List.getElem?_enum, hl, Option.map_some']
    simp only [hgd]

theorem mismatched_lengths_tolerated_witness :
    (["A", "B"] : List String)[1]? = some "B" ∧ ([(5 : ℚ)] : List ℚ).length ≤ 1 ∧
    ((generateLabels ["A", "B"] [(5 : ℚ)]).length = (["A", "B"] : List String).length ∧
      (generateLabels ["A", "B"] [(5 : ℚ)])[1]?
        = some ⟨"B" ++ " — " ++ pctStr 0 (total [(5 : ℚ)]) ++ "% (" ++ numToStr 0 ++ ")", 1⟩) :=
  ⟨rfl, by decide,
    (mismatched_lengths_tolerated ["A", "B"] [(5 : ℚ)]).1,
    (mismatched_lengths_tolerated ["A", "B"] [(5 : ℚ)]).2 1 "B" rfl (by decide)⟩
